import Mathlib

/-!
Verification development for the celestine validation scripts
(`generate_reference_data.py` and `einstein_chart.py`).

The scripts call the external Swiss Ephemeris engine (`swe`) and format or
export its answers.  The embedding below models the scripts' own computations
exactly (Python `int()` truncation, Python `%` on floats, Python `round` with
ties to even, the dataset-assembly loops, the local-sidereal-time arithmetic),
while the external engine is represented as an abstract provider: a function
from (planet id, julian day) to either a result tuple or an error, since the
scripts treat it as an opaque oracle.  Machine floats are modelled as exact
rationals.  `json.dump` is a deterministic pure function of the dumped value,
so byte-identity of the exported file across runs is equality of the
assembled `AllData` values.
-/

namespace Celestine

/-- Python `int(x)` on a float: truncation toward zero. -/
def pyTrunc (x : ℚ) : ℤ := if 0 ≤ x then ⌊x⌋ else ⌈x⌉

/-- Python `a % b` on floats: `a - b*floor(a/b)`, taking the sign of the divisor. -/
def pyFloatMod (a b : ℚ) : ℚ := a - b * ⌊a / b⌋

/-- Python `round(x)` to the nearest integer, ties going to the even integer. -/
def pyRoundInt (x : ℚ) : ℤ :=
  if x - ⌊x⌋ < 1/2 then ⌊x⌋
  else if 1/2 < x - ⌊x⌋ then ⌊x⌋ + 1
  else if ⌊x⌋ % 2 = 0 then ⌊x⌋ else ⌊x⌋ + 1

/-- Python `round(x, 6)` of the scripts: the value at 6 decimal places. -/
def round6 (x : ℚ) : ℚ := (pyRoundInt (x * 1000000) : ℚ) / 1000000

/-- Swiss Ephemeris planet id `swe.SUN`. -/
def sweSUN : ℕ := 0

/-- Swiss Ephemeris planet id `swe.MOON`. -/
def sweMOON : ℕ := 1

/-- Swiss Ephemeris planet id `swe.MERCURY`. -/
def sweMERCURY : ℕ := 2

/-- Swiss Ephemeris planet id `swe.VENUS`. -/
def sweVENUS : ℕ := 3

/-- Swiss Ephemeris planet id `swe.MARS`. -/
def sweMARS : ℕ := 4

/-- Swiss Ephemeris planet id `swe.JUPITER`. -/
def sweJUPITER : ℕ := 5

/-- Swiss Ephemeris planet id `swe.SATURN`. -/
def sweSATURN : ℕ := 6

/-- Swiss Ephemeris planet id `swe.URANUS`. -/
def sweURANUS : ℕ := 7

/-- Swiss Ephemeris planet id `swe.NEPTUNE`. -/
def sweNEPTUNE : ℕ := 8

/-- Swiss Ephemeris planet id `swe.PLUTO`. -/
def swePLUTO : ℕ := 9

/-- The `PLANETS` dict of `generate_reference_data.py`, in source order. -/
def PLANETS : List (String × ℕ) :=
  [("Sun", sweSUN), ("Moon", sweMOON), ("Mercury", sweMERCURY), ("Venus", sweVENUS),
   ("Mars", sweMARS), ("Jupiter", sweJUPITER), ("Saturn", sweSATURN),
   ("Uranus", sweURANUS), ("Neptune", sweNEPTUNE), ("Pluto", swePLUTO)]

/-- The `TEST_DATES` list of `generate_reference_data.py`: (julian day, description). -/
def TEST_DATES : List (ℚ × String) :=
  [(2451545, "2000-Jan-01 12:00 TT (J2000.0)"),
   (2448724.5, "1992-Apr-12 00:00 TT (Meeus Ex 47.a)"),
   (2415020.5, "1900-Jan-01 00:00 TT"),
   (2440587.5, "1970-Jan-01 00:00 TT (Unix epoch)"),
   (2459580.5, "2022-Jan-01 00:00 TT"),
   (2488069.5, "2100-Jan-01 00:00 TT")]

/-- The tuple `xx` returned by `swe.calc_ut`:
`[longitude, latitude, distance, longitude speed, latitude speed, distance speed]`. -/
structure ProviderResult where
  lon : ℚ
  lat : ℚ
  dist : ℚ
  lonSpeed : ℚ
  latSpeed : ℚ
  distSpeed : ℚ
deriving DecidableEq

/-- A failure of the external engine (e.g. a body whose auxiliary ephemeris
file is unavailable, as for Chiron in the scripts' comments). -/
inductive ProviderError
  | unsupportedBody
deriving DecidableEq

/-- The external ephemeris engine as the scripts see it: `swe.calc_ut` as a
function of planet id and julian day (UT), which may raise. -/
def Provider := ℕ → ℚ → Except ProviderError ProviderResult

/-- The dict built by `calculate_position` in `generate_reference_data.py`. -/
structure Pos where
  longitude : ℚ
  latitude : ℚ
  distance : ℚ
  longitude_speed : ℚ
  latitude_speed : ℚ
  is_retrograde : Bool
deriving DecidableEq

/-- `calculate_position` of `generate_reference_data.py`, applied to the tuple
returned by the provider: the five numeric fields are `round(_, 6)` of the raw
values, while `is_retrograde` compares the raw (unrounded) longitude speed with 0. -/
def calculate_position (result : ProviderResult) : Pos :=
  { longitude := round6 result.lon
    latitude := round6 result.lat
    distance := round6 result.dist
    longitude_speed := round6 result.lonSpeed
    latitude_speed := round6 result.latSpeed
    is_retrograde := decide (result.lonSpeed < 0) }

/-- A JSON scalar appearing in a per-body record. -/
inductive JVal
  | num (q : ℚ)
  | bool (b : Bool)
deriving DecidableEq

/-- The key/value pairs of the dict returned by `calculate_position`, in source order. -/
def posFields (p : Pos) : List (String × JVal) :=
  [("longitude", .num p.longitude),
   ("latitude", .num p.latitude),
   ("distance", .num p.distance),
   ("longitude_speed", .num p.longitude_speed),
   ("latitude_speed", .num p.latitude_speed),
   ("is_retrograde", .bool p.is_retrograde)]

/-- `format_zodiac` of both scripts, viewed as the (sign index, degree within
sign) pair it formats: `sign_idx = int(longitude / 30) % 12` and
`degrees = longitude % 30`. -/
def format_zodiac (longitude : ℚ) : ℤ × ℚ :=
  (pyTrunc (longitude / 30) % 12, pyFloatMod longitude 30)

/-- Sequencing of a Python `for` loop whose body may raise: the first raised
exception aborts the remaining iterations and propagates. -/
def mapE {α β ε : Type} (f : α → Except ε β) : List α → Except ε (List β)
  | [] => .ok []
  | a :: l => (f a).bind fun b => (mapE f l).map fun bs => b :: bs

/-- One `date_data` entry of `main()` in `generate_reference_data.py`. -/
structure DateData where
  description : String
  jd : ℚ
  positions : List (String × Pos)
deriving DecidableEq

/-- The inner planet loop of `main()` in `generate_reference_data.py`: each
planet is queried at the date's raw julian day and the result is stored under
the planet's name. -/
def datePositions (provider : Provider) (jd : ℚ) :
    Except ProviderError (List (String × Pos)) :=
  mapE (fun p => (provider p.2 jd).map fun r => (p.1, calculate_position r)) PLANETS

/-- The outer date loop of `main()` in `generate_reference_data.py`, keyed by
each test date's julian day. -/
def buildDates (provider : Provider) : Except ProviderError (List (ℚ × DateData)) :=
  mapE (fun d => (datePositions provider d.1).map fun ps =>
    (d.1, DateData.mk d.2 d.1 ps)) TEST_DATES

/-- The `all_data` dict of `main()` in `generate_reference_data.py`.  Its
`generated_at` field is `datetime.now().isoformat()` at build time. -/
structure AllData where
  generator : String
  version : String
  generated_at : String
  dates : List (ℚ × DateData)
  planets : List String
deriving DecidableEq

/-- `main()` of `generate_reference_data.py`: assemble `all_data`.  `now` is the
wall-clock string `datetime.now().isoformat()` and `version` is `swe.version`.
The exported file is `json.dump` of this value, a deterministic pure function
of it, so two runs export byte-identical JSON exactly when their `AllData`
values are equal. -/
def buildAllData (now version : String) (provider : Provider) :
    Except ProviderError AllData :=
  (buildDates provider).map fun ds =>
    { generator := "pyswisseph"
      version := version
      generated_at := now
      dates := ds
      planets := PLANETS.map Prod.fst }

/-- The all-zero provider tuple, used as a concrete deterministic oracle. -/
def zeroResult : ProviderResult := ⟨0, 0, 0, 0, 0, 0⟩

/-- A provider that answers every query with the zero tuple. -/
def okZeroProvider : Provider := fun _ _ => .ok zeroResult

/-- A provider that fails for Pluto only and answers every other query. -/
def plutoFailProvider : Provider := fun pid _ =>
  if pid = swePLUTO then .error .unsupportedBody else .ok zeroResult

/-- A provider that fails for the Sun only and answers every other query. -/
def sunFailProvider : Provider := fun pid _ =>
  if pid = sweSUN then .error .unsupportedBody else .ok zeroResult

/-- A provider tuple whose longitude speed is a tiny negative number. -/
def tinyNegResult : ProviderResult := ⟨0, 0, 0, -1/10000000, 0, 0⟩

/-- The decimal hour of `einstein_chart.py`: `HOUR_UT + MINUTE_UT/60 + SECOND_UT/3600`. -/
def hour_decimal : ℚ := 10 + 50/60 + 0/3600

/-- Modelled from the spec: the standard astronomical Julian Day formula on the
proleptic Gregorian calendar ("the standard astronomical Julian Day algorithm",
spec section 4.1).  The script delegates this conversion to the external
`swe.julday`, whose code is not part of this repository; the formula never
rejects an input. -/
def julday (year month day : ℤ) (hour : ℚ) : ℚ :=
  let u : ℤ := if month < 3 then year - 1 else year
  let u1 : ℤ := if month + 1 < 4 then month + 13 else month + 1
  let jd : ℚ := (⌊((u : ℚ) + 4712) * (365.25 : ℚ)⌋ : ℚ)
      + (⌊(30.6 : ℚ) * (u1 : ℚ) + (0.000001 : ℚ)⌋ : ℚ)
      + (day : ℚ) + hour / 24 - 63.5
  let u2 : ℤ := if u < 0 then -(|u| / 100 - |u| / 400) else |u| / 100 - |u| / 400
  let jd2 : ℚ := jd - (u2 : ℚ) + 2
  if u < 0 ∧ u % 100 = 0 ∧ u % 400 ≠ 0 then jd2 - 1 else jd2

/-- The error the spec's TimeConverter contract demands for malformed calendar fields. -/
inductive MomentError
  | invalidMoment
deriving DecidableEq

/-- The Julian-Day step of `einstein_chart.py` (lines 77-80): the calendar
fields are handed to `julday` unconditionally; the script contains no
validation and no error path, so the conversion always succeeds. -/
def scriptJulianDay (year month day : ℤ) (hour : ℚ) : Except MomentError ℚ :=
  .ok (julday year month day hour)

/-- `jd_tt = jd + delta_t` of `einstein_chart.py` (line 85), where `delta_t`
is the value returned by `swe.deltat(jd)`, a time span in days. -/
def jd_tt (jd dt : ℚ) : ℚ := jd + dt

/-- The Delta-T value the script prints in seconds (line 86): `delta_t * 86400`. -/
def deltaTSeconds (dt : ℚ) : ℚ := dt * 86400

/-- Lines 92-98 of `einstein_chart.py`: local sidereal time in degrees from
the GMST hours returned by `swe.sidtime` and the geographic longitude:
`lst = sidtime*15 + longitude`, followed by a single conditional
`if lst >= 360: lst -= 360`. -/
def localSiderealTime (gmstHours lon : ℚ) : ℚ :=
  if 360 ≤ gmstHours * 15 + lon then gmstHours * 15 + lon - 360
  else gmstHours * 15 + lon

/-- The (planet name, julian day) arguments of the `swe.calc_ut` calls in the
planet loop of `einstein_chart.py` (line 137): the raw UT julian day `jd` is
passed, even though `delta_t` and `jd_tt` have been computed and are in scope. -/
def einsteinPlanetQueries (jd dt : ℚ) : List (String × ℚ) :=
  PLANETS.map fun p => (p.1, jd)

/-! ### Helper lemmas -/

theorem pyFloatMod_eq_fract (L b : ℚ) (hb : b ≠ 0) :
    pyFloatMod L b = b * Int.fract (L / b) := by
  unfold pyFloatMod Int.fract
  field_simp

theorem pyFloatMod_nonneg (L : ℚ) : 0 ≤ pyFloatMod L 30 := by
  rw [pyFloatMod_eq_fract L 30 (by norm_num)]
  exact mul_nonneg (by norm_num) (Int.fract_nonneg _)

theorem pyFloatMod_lt (L : ℚ) : pyFloatMod L 30 < 30 := by
  rw [pyFloatMod_eq_fract L 30 (by norm_num)]
  calc (30 : ℚ) * Int.fract (L / 30) < 30 * 1 :=
        mul_lt_mul_of_pos_left (Int.fract_lt_one _) (by norm_num)
    _ = 30 := by norm_num

theorem mapE_pure {α β ε : Type} (g : α → β) (l : List α) :
    mapE (ε := ε) (fun a => .ok (g a)) l = .ok (l.map g) := by
  induction l with
  | nil => rfl
  | cons a l ih => simp [mapE, ih, Except.bind, Except.map]

theorem exceptIsOk_map {α β ε : Type} (f : α → β) (x : Except ε α) :
    (x.map f).isOk = x.isOk := by
  cases x <;> rfl

theorem mapE_isOk_false {α β ε : Type} (f : α → Except ε β) (l : List α)
    (h : ∃ a ∈ l, (f a).isOk = false) : (mapE f l).isOk = false := by
  induction l with
  | nil => simp at h
  | cons b l ih =>
      obtain ⟨a, ha, hfa⟩ := h
      rcases List.mem_cons.mp ha with rfl | ha
      · cases hfb : f a with
        | error e => simp [mapE, hfb, Except.bind, Except.isOk, Except.toBool]
        | ok v => rw [hfb] at hfa; simp [Except.isOk, Except.toBool] at hfa
      · cases hfb : f b with
        | error e => simp [mapE, hfb, Except.bind, Except.isOk, Except.toBool]
        | ok v =>
            have := ih ⟨a, ha, hfa⟩
            simp [mapE, hfb, Except.bind, exceptIsOk_map, this]

/-! ### C1: zodiac formatting -/

/-- C1: for every longitude the sign index lies in 0..11 and the degree within
sign in [0,30); for nonnegative longitudes the sign index is floor(L/30) mod 12,
and for L in [0,360) the pair reconstructs L exactly.  (For negative longitudes
the code truncates toward zero instead of flooring, see the counterexample.) -/
theorem format_zodiac_spec (L : ℚ) :
    0 ≤ (format_zodiac L).1 ∧ (format_zodiac L).1 < 12 ∧
    0 ≤ (format_zodiac L).2 ∧ (format_zodiac L).2 < 30 ∧
    (0 ≤ L → (format_zodiac L).1 = ⌊L / 30⌋ % 12) ∧
    (0 ≤ L → L < 360 → ((format_zodiac L).1 : ℚ) * 30 + (format_zodiac L).2 = L) := by
  refine ⟨Int.emod_nonneg _ (by norm_num), Int.emod_lt_of_pos _ (by norm_num),
    pyFloatMod_nonneg L, pyFloatMod_lt L, ?_, ?_⟩
  · intro hL
    have h30 : (0 : ℚ) ≤ L / 30 := div_nonneg hL (by norm_num)
    show pyTrunc (L / 30) % 12 = ⌊L / 30⌋ % 12
    rw [pyTrunc, if_pos h30]
  · intro hL hL'
    have h30 : (0 : ℚ) ≤ L / 30 := div_nonneg hL (by norm_num)
    have hfl : ⌊L / 30⌋ % 12 = ⌊L / 30⌋ := by
      apply Int.emod_eq_of_lt (Int.floor_nonneg.mpr h30)
      rw [Int.floor_lt]
      rw [div_lt_iff₀ (by norm_num : (0:ℚ) < 30)]
      push_cast
      linarith
    show (((pyTrunc (L / 30) % 12 : ℤ) : ℚ)) * 30 + pyFloatMod L 30 = L
    rw [pyTrunc, if_pos h30, hfl, pyFloatMod]
    ring

/-- C1 witness: at longitude 45 the hypotheses hold and the floor law and
reconstruction law are concrete. -/
theorem format_zodiac_spec_witness :
    (format_zodiac 45).1 = ⌊(45 : ℚ) / 30⌋ % 12 ∧
    ((format_zodiac 45).1 : ℚ) * 30 + (format_zodiac 45).2 = 45 :=
  ⟨(format_zodiac_spec 45).2.2.2.2.1 (by norm_num),
   (format_zodiac_spec 45).2.2.2.2.2 (by norm_num) (by norm_num)⟩

/-- C1 counterexample: at longitude -15 the code yields sign index 0
(truncation toward zero), while floor(-15/30) mod 12 = 11 as the claim states. -/
theorem format_zodiac_counterexample :
    (format_zodiac (-15)).1 = 0 ∧ ⌊((-15 : ℚ)) / 30⌋ % 12 = 11 := by
  constructor
  · show pyTrunc ((-15 : ℚ) / 30) % 12 = 0
    rw [pyTrunc, if_neg (by norm_num)]
    have hc : ⌈((-15 : ℚ)) / 30⌉ = 0 := by norm_num
    rw [hc]
    rfl
  · norm_num

/-! ### C2: reproducibility of the exported dataset -/

theorem datePositions_okZero (jd : ℚ) :
    datePositions okZeroProvider jd =
      .ok (PLANETS.map fun p => (p.1, calculate_position zeroResult)) := by
  have h : (fun p : String × ℕ =>
      (okZeroProvider p.2 jd).map fun r => (p.1, calculate_position r)) =
      fun p : String × ℕ => .ok (p.1, calculate_position zeroResult) := by
    funext p
    rfl
  rw [datePositions, h]
  exact mapE_pure _ _

theorem buildDates_okZero :
    buildDates okZeroProvider = .ok (TEST_DATES.map fun d =>
      (d.1, DateData.mk d.2 d.1 (PLANETS.map fun p => (p.1, calculate_position zeroResult)))) := by
  have h : (fun d : ℚ × String =>
      (datePositions okZeroProvider d.1).map fun ps => (d.1, DateData.mk d.2 d.1 ps)) =
      fun d : ℚ × String =>
        .ok (d.1, DateData.mk d.2 d.1 (PLANETS.map fun p => (p.1, calculate_position zeroResult))) := by
    funext d
    rw [datePositions_okZero]
    rfl
  rw [buildDates, h]
  exact mapE_pure _ _

/-- C2 (amended): with the same provider responses, every part of the
assembled dataset except `generated_at` is identical across two runs: the
`dates` mapping, the planet list, the generator and version strings agree,
while `generated_at` is exactly the wall-clock string of the run. -/
theorem buildAllData_deterministic (t1 t2 v : String) (p : Provider) :
    (buildAllData t1 v p).map AllData.dates = (buildAllData t2 v p).map AllData.dates ∧
    (buildAllData t1 v p).map AllData.planets = (buildAllData t2 v p).map AllData.planets ∧
    (buildAllData t1 v p).map AllData.generator = (buildAllData t2 v p).map AllData.generator ∧
    (buildAllData t1 v p).map AllData.version = (buildAllData t2 v p).map AllData.version ∧
    (buildAllData t1 v p).map AllData.generated_at = (buildDates p).map fun _ => t1 := by
  cases h : buildDates p with
  | error e => simp [buildAllData, h, Except.map]
  | ok ds => simp [buildAllData, h, Except.map]

/-- C2 counterexample: two builds from identical provider responses but at
different wall-clock times differ as values, hence their `json.dump`
serializations differ in bytes: the `generated_at` field is hidden
time-dependent state in the serialized output. -/
theorem buildAllData_counterexample :
    buildAllData "2024-01-01T00:00:00" "2.10.03" okZeroProvider ≠
    buildAllData "2024-01-01T00:00:01" "2.10.03" okZeroProvider := by
  intro h
  rw [buildAllData, buildAllData, buildDates_okZero] at h
  simp only [Except.map, Except.ok.injEq, AllData.mk.injEq] at h
  exact absurd h.2.2.1 (by decide)

/-! ### C3: a provider failure aborts the whole build -/

/-- C3 (amended): a provider failure for any (body, date) pair that the build
queries aborts the entire dataset build: `main()` wraps no call in a handler,
so the exception propagates and no partial dataset or failure list is produced. -/
theorem buildDates_aborts_on_failure (p : Provider)
    (h : ∃ d ∈ TEST_DATES, ∃ pl ∈ PLANETS, (p pl.2 d.1).isOk = false) :
    (buildDates p).isOk = false := by
  obtain ⟨d, hd, pl, hpl, hfail⟩ := h
  apply mapE_isOk_false
  refine ⟨d, hd, ?_⟩
  rw [exceptIsOk_map]
  apply mapE_isOk_false
  refine ⟨pl, hpl, ?_⟩
  rw [exceptIsOk_map, hfail]

/-- C3 witness: with a provider failing exactly for the Sun, the whole build aborts. -/
theorem buildDates_aborts_witness : (buildDates sunFailProvider).isOk = false :=
  buildDates_aborts_on_failure sunFailProvider
    ⟨(2451545, "2000-Jan-01 12:00 TT (J2000.0)"), by simp [TEST_DATES],
     ("Sun", sweSUN), by simp [PLANETS], rfl⟩

/-- C3 counterexample: a provider that fails only for Pluto, succeeding for the
Sun and all other bodies, nevertheless makes the whole build return a failure:
no partial dataset for the other bodies survives and no failure list exists. -/
theorem buildDates_counterexample :
    (buildDates plutoFailProvider).isOk = false ∧
    (plutoFailProvider sweSUN 2451545).isOk = true ∧
    (plutoFailProvider swePLUTO 2451545).isOk = false := by
  refine ⟨?_, rfl, rfl⟩
  apply mapE_isOk_false
  refine ⟨(2451545, "2000-Jan-01 12:00 TT (J2000.0)"), by simp [TEST_DATES], ?_⟩
  rw [exceptIsOk_map]
  apply mapE_isOk_false
  exact ⟨("Pluto", swePLUTO), by simp [PLANETS], rfl⟩

/-! ### C4: local sidereal time normalization -/

/-- C4 (amended): for GMST hours in [0,24) and a nonnegative geographic
longitude up to 360 degrees, the computed local sidereal time equals
GMST·15 + longitude reduced modulo 360 and lies in [0,360).  (The code's single
conditional subtraction cannot normalize a negative sum, see the counterexample.) -/
theorem localSiderealTime_spec (h lon : ℚ) (h0 : 0 ≤ h) (h24 : h < 24)
    (l0 : 0 ≤ lon) (l360 : lon ≤ 360) :
    localSiderealTime h lon = pyFloatMod (h * 15 + lon) 360 ∧
    0 ≤ localSiderealTime h lon ∧ localSiderealTime h lon < 360 := by
  have ha0 : 0 ≤ h * 15 + lon := add_nonneg (mul_nonneg h0 (by norm_num)) l0
  have ha720 : h * 15 + lon < 720 := by nlinarith
  rw [localSiderealTime, pyFloatMod]
  by_cases hc : 360 ≤ h * 15 + lon
  · have hfl : ⌊(h * 15 + lon) / 360⌋ = 1 := by
      rw [Int.floor_eq_iff]
      constructor
      · rw [le_div_iff₀ (by norm_num)]
        push_cast
        linarith
      · rw [div_lt_iff₀ (by norm_num)]
        push_cast
        linarith
    rw [if_pos hc, hfl]
    push_cast
    refine ⟨by ring, by linarith, by linarith⟩
  · push_neg at hc
    have hfl : ⌊(h * 15 + lon) / 360⌋ = 0 := by
      rw [Int.floor_eq_iff]
      constructor
      · rw [le_div_iff₀ (by norm_num)]
        push_cast
        linarith
      · rw [div_lt_iff₀ (by norm_num)]
        push_cast
        linarith
    rw [if_neg (by linarith), hfl]
    push_cast
    refine ⟨by ring, ha0, hc⟩

/-- C4 witness: at GMST 23h and longitude 100 the hypotheses hold and the
result is the reduced value in range. -/
theorem localSiderealTime_witness :
    localSiderealTime 23 100 = pyFloatMod (23 * 15 + 100) 360 ∧
    0 ≤ localSiderealTime 23 100 ∧ localSiderealTime 23 100 < 360 :=
  localSiderealTime_spec 23 100 (by norm_num) (by norm_num) (by norm_num) (by norm_num)

/-- C4 counterexample: at GMST 0h and longitude -10 the code returns -10,
a negative local sidereal time, contradicting the claim that the returned
value is never negative. -/
theorem localSiderealTime_counterexample : localSiderealTime 0 (-10) < 0 := by
  rw [localSiderealTime, if_neg (by norm_num)]
  norm_num

/-! ### C5: TT from UT and Delta-T -/

/-- C5: the Julian Day (TT) computed by the script equals jdUT plus the
Delta-T value in seconds divided by 86400 (the script adds the provider's
day-valued delta directly, and prints `delta_t * 86400` as the seconds value). -/
theorem jd_tt_spec (jd dt : ℚ) : jd_tt jd dt = jd + deltaTSeconds dt / 86400 := by
  rw [jd_tt, deltaTSeconds, mul_div_assoc]
  norm_num

/-! ### C6: provider queries use the UT julian day -/

/-- C6: every planetary `swe.calc_ut` query of the chart script passes the raw
UT julian day, and (whenever Delta-T is positive) not the TT julian day: Delta-T
is never added before the provider query, so it is never applied twice. -/
theorem einsteinQueries_use_ut (jd dt : ℚ) (q : String × ℚ)
    (hq : q ∈ einsteinPlanetQueries jd dt) :
    q.2 = jd ∧ (0 < dt → q.2 ≠ jd_tt jd dt) := by
  obtain ⟨p, hp, rfl⟩ := List.mem_map.mp hq
  refine ⟨rfl, ?_⟩
  intro hdt heq
  rw [jd_tt] at heq
  simp only at heq
  linarith

/-- C6 witness: the Sun query at jd 5 with Delta-T 1 passes 5, not 6. -/
theorem einsteinQueries_use_ut_witness :
    ("Sun", (5 : ℚ)).2 = 5 ∧ (0 < (1 : ℚ) → ("Sun", (5 : ℚ)).2 ≠ jd_tt 5 1) :=
  einsteinQueries_use_ut 5 1 ("Sun", 5) (by simp [einsteinPlanetQueries, PLANETS])

/-! ### C7: retrograde flag -/

/-- C7: the retrograde flag of a produced BodyPosition is true exactly when the
provider's (unrounded) longitude speed is strictly negative. -/
theorem is_retrograde_iff (r : ProviderResult) :
    ((calculate_position r).is_retrograde = true) ↔ r.lonSpeed < 0 := by
  simp [calculate_position]

/-! ### C8: six fields, rounded to 6 decimal places -/

/-- C8: the serialized per-body record has exactly the six keys longitude,
latitude, distance, longitude_speed, latitude_speed, is_retrograde in that
order, each numeric field is round(raw, 6), and each is an exact multiple of
10^-6. -/
theorem posFields_spec (r : ProviderResult) :
    (posFields (calculate_position r)).map Prod.fst =
      ["longitude", "latitude", "distance", "longitude_speed",
       "latitude_speed", "is_retrograde"] ∧
    (calculate_position r).longitude = round6 r.lon ∧
    (calculate_position r).latitude = round6 r.lat ∧
    (calculate_position r).distance = round6 r.dist ∧
    (calculate_position r).longitude_speed = round6 r.lonSpeed ∧
    (calculate_position r).latitude_speed = round6 r.latSpeed ∧
    (∃ n : ℤ, (calculate_position r).longitude = (n : ℚ) / 1000000) ∧
    (∃ n : ℤ, (calculate_position r).latitude = (n : ℚ) / 1000000) ∧
    (∃ n : ℤ, (calculate_position r).distance = (n : ℚ) / 1000000) ∧
    (∃ n : ℤ, (calculate_position r).longitude_speed = (n : ℚ) / 1000000) ∧
    (∃ n : ℤ, (calculate_position r).latitude_speed = (n : ℚ) / 1000000) :=
  ⟨rfl, rfl, rfl, rfl, rfl, rfl,
   ⟨pyRoundInt (r.lon * 1000000), rfl⟩,
   ⟨pyRoundInt (r.lat * 1000000), rfl⟩,
   ⟨pyRoundInt (r.dist * 1000000), rfl⟩,
   ⟨pyRoundInt (r.lonSpeed * 1000000), rfl⟩,
   ⟨pyRoundInt (r.latSpeed * 1000000), rfl⟩⟩

/-! ### C9: no calendar validation before conversion -/

/-- C9 (amended): the script performs no calendar-field validation: the Julian
Day step succeeds for every year, month, day and hour, and no InvalidMoment
error path exists anywhere in the scripts. -/
theorem scriptJulianDay_total (year month day : ℤ) (hour : ℚ) :
    (scriptJulianDay year month day hour).isOk = true := rfl

/-- C9 counterexample: month 13 is outside 1..12, yet the script's Julian Day
step succeeds instead of failing with an InvalidMoment error. -/
theorem scriptJulianDay_counterexample :
    (scriptJulianDay 1879 13 14 hour_decimal).isOk = true ∧ ¬ ((13 : ℤ) ≤ 12) :=
  ⟨rfl, by norm_num⟩

/-! ### C10: rounded speed versus retrograde flag -/

theorem round6_tiny_neg (s : ℚ) (h1 : -(1/2000000) ≤ s) (h2 : s < 0) :
    round6 s = 0 := by
  have hx1 : -(1/2) ≤ s * 1000000 := by linarith
  have hx2 : s * 1000000 < 0 := by nlinarith
  have hfl : ⌊s * 1000000⌋ = -1 := by
    rw [Int.floor_eq_iff]
    push_cast
    constructor <;> linarith
  have hzero : pyRoundInt (s * 1000000) = 0 := by
    rw [pyRoundInt, hfl, if_neg (by push_cast; linarith)]
    rcases lt_or_eq_of_le hx1 with hlt | heq
    · rw [if_pos (by push_cast; linarith)]
      norm_num
    · rw [if_neg (by push_cast; linarith), if_neg (by norm_num)]
      norm_num
  rw [round6, hzero]
  norm_num

/-- C10: for a provider longitude speed in [-5e-7, 0) the exported record has
is_retrograde = true while its exported longitude_speed rounds to exactly 0;
a zero raw speed gives the same exported speed with is_retrograde = false, so
the exported flag is not determined by the exported speed field. -/
theorem retrograde_not_determined_by_rounded (r : ProviderResult)
    (h1 : -(1/2000000) ≤ r.lonSpeed) (h2 : r.lonSpeed < 0) :
    (calculate_position r).is_retrograde = true ∧
    (calculate_position r).longitude_speed = 0 ∧
    (calculate_position { r with lonSpeed := 0 }).is_retrograde = false := by
  refine ⟨by simp [calculate_position, h2], ?_, by simp [calculate_position]⟩
  show round6 r.lonSpeed = 0
  exact round6_tiny_neg r.lonSpeed h1 h2

/-- C10 witness: at raw speed -1e-7 the exported record is retrograde with
exported speed exactly 0, while raw speed 0 is not retrograde. -/
theorem retrograde_not_determined_witness :
    (calculate_position tinyNegResult).is_retrograde = true ∧
    (calculate_position tinyNegResult).longitude_speed = 0 ∧
    (calculate_position { tinyNegResult with lonSpeed := 0 }).is_retrograde = false :=
  retrograde_not_determined_by_rounded tinyNegResult
    (by norm_num [tinyNegResult]) (by norm_num [tinyNegResult])

end Celestine
